import Mathlib

/-!
Verification of the ASCII art conversion core.

This development shallowly embeds the conversion pipeline in Lean 4:

* `character_sets`: glyph tables and the brightness-to-glyph mapper
  (`CharacterMapper.get_character`, `get_inverted_character`,
  `get_colored_emoji`);
* `color_handler`: the `RGB` record and the per-glyph output formatter
  (`format_character`, `format_emoji`, `format_line`, `wrap_output`);
* `image_processor`: the processor state (original + working image) and its
  geometric operations; the underlying image library (Pillow/OpenCV) is
  abstracted as a `PixelSource` record of deterministic, shape-preserving
  primitives, exactly the collaborator contract the design assumes;
* `ascii_converter`: `ConversionSettings`, the preprocessing pipeline
  (`apply_preprocessing`), ASCII generation (`generate_ascii`) and the
  public `convert` entry point.

Machine floats are modelled as exact rationals (`ℚ`); Python `int(x)`
(truncation toward zero) is modelled by `pyInt`.
-/

namespace AsciiArt

/-- Python `int(x)` applied to a float: truncation toward zero. -/
def pyInt (x : ℚ) : ℤ := if 0 ≤ x then ⌊x⌋ else ⌈x⌉

/-- Half-up rounding `round(x) = ⌊x + 1/2⌋`, the rounding rule named by the
design document for the glyph-index and resize formulas. -/
def roundHalfUp (x : ℚ) : ℤ := ⌊x + 1/2⌋

/-! ## character_sets: glyph tables -/

/-- `CharacterSet.STANDARD = "@%#*+=-:. "`, one glyph per character. -/
def STANDARD : List String :=
  ["@", "%", "#", "*", "+", "=", "-", ":", ".", " "]

/-- `CharacterSet.DETAILED`, the 70-glyph default table. -/
def DETAILED : List String :=
  ["$", "@", "B", "%", "8", "&", "W", "M", "#", "*",
   "o", "a", "h", "k", "b", "d", "p", "q", "w", "m",
   "Z", "O", "0", "Q", "L", "C", "J", "U", "Y", "X",
   "z", "c", "v", "u", "n", "x", "r", "j", "f", "t",
   "/", "\\", "|", "(", ")", "1", "\x7b", "\x7d", "[", "]",
   "?", "-", "_", "+", "~", "<", ">", "i", "!", "l",
   "I", ";", ":", ",", "\"", "^", "\x60", "\x27", ".", " "]

/-- `CharacterSet.SIMPLE = "@#*:. "`. -/
def SIMPLE : List String :=
  ["@", "#", "*", ":", ".", " "]

/-- `EmojiSet.BRIGHTNESS`, the default emoji table (dark to light). -/
def BRIGHTNESS : List String :=
  ["⬛", "🟫", "🟥", "🟧", "🟨", "🟩", "🟦", "🟪", "⬜"]

/-! ## character_sets: CharacterMapper -/

/-- `CharacterMapper`: holds the selected glyph table.  A glyph table is a
list of glyph strings (single characters for ASCII sets, emoji for emoji
sets). -/
structure CharacterMapper where
  characters : List String
  is_emoji : Bool

/-- `CharacterMapper.__init__`: use the emoji table when `use_emoji` is set
and a (truthy, i.e. non-empty) emoji set is supplied, else the charset. -/
def mkCharacterMapper (charset : List String) (emoji_set : Option (List String))
    (use_emoji : Bool) : CharacterMapper :=
  match use_emoji, emoji_set with
  | true, some es => if es.isEmpty then ⟨charset, false⟩ else ⟨es, true⟩
  | _, _ => ⟨charset, false⟩

/-- `self.num_chars = len(self.characters)`. -/
def CharacterMapper.num_chars (m : CharacterMapper) : ℕ := m.characters.length

/-- The index computation inside `CharacterMapper.get_character`:
clamp brightness to `[0,255]`, normalize, scale by `num_chars - 1`, add
`0.5` and truncate with `int(...)`, then clamp to `[0, num_chars - 1]`. -/
def CharacterMapper.charIndex (m : CharacterMapper) (brightness : ℚ) : ℤ :=
  let b := max 0 (min 255 brightness)
  let normalized := b / 255
  let index := pyInt (normalized * ((m.num_chars : ℚ) - 1) + 0.5)
  max 0 (min index ((m.num_chars : ℤ) - 1))

/-- `CharacterMapper.get_character`: index the glyph table at `charIndex`.
Indexing an empty table raises in the source; this is modelled by
`Option`. -/
def CharacterMapper.get_character (m : CharacterMapper) (brightness : ℚ) :
    Option String :=
  m.characters.get? (m.charIndex brightness).toNat

/-- `CharacterMapper.get_inverted_character`:
`self.get_character(255 - brightness)`. -/
def CharacterMapper.get_inverted_character (m : CharacterMapper)
    (brightness : ℚ) : Option String :=
  m.get_character (255 - brightness)

/-- `CharacterMapper.get_colored_emoji`: dominant-color emoji
classification with the source's fixed thresholds.  The emoji literals are
the values of the source's `color_emojis` dictionary. -/
def get_colored_emoji (r g b : ℕ) : String :=
  let brightness : ℚ := ((r : ℚ) + (g : ℚ) + (b : ℚ)) / 3
  if brightness < 30 then "⬛"
  else if brightness > 225 then "⬜"
  else
    let max_channel := max r (max g b)
    if r = max_channel then
      if g > 150 ∧ r > 200 then "🟨"
      else if g > 100 then "🟧"
      else "🟥"
    else if g = max_channel then "🟩"
    else if r > 150 then "🟪"
    else "🟦"

/-! ## Claim-side (specification) definitions for the glyph mapper -/

/-- Specification formula for the glyph index (§4.2 of the design):
`index(b) = round(clamp(b,0,255)/255 × (n−1))` with half-up rounding,
clamped again to `[0, n−1]` after rounding. -/
def specGlyphIndex (n : ℕ) (b : ℚ) : ℤ :=
  max 0 (min (roundHalfUp (max 0 (min 255 b) / 255 * ((n : ℚ) - 1))) ((n : ℤ) - 1))

/-- Specification decision tree for color-driven emoji classification
(§4.2), with "red/green/blue is the maximum channel" rendered as the
channel dominating both others. -/
def specColorClass (r g b : ℕ) : String :=
  let mean : ℚ := ((r : ℚ) + (g : ℚ) + (b : ℚ)) / 3
  if mean < 30 then "⬛"
  else if 225 < mean then "⬜"
  else if g ≤ r ∧ b ≤ r then
    if 150 < g ∧ 200 < r then "🟨"
    else if 100 < g then "🟧"
    else "🟥"
  else if r ≤ g ∧ b ≤ g then "🟩"
  else if 150 < r then "🟪"
  else "🟦"

/-! ## color_handler: RGB and output formatting -/

/-- The `RGB` dataclass.  Channels are integers; callers pass values in
`[0,255]`. -/
structure RGB where
  r : ℕ
  g : ℕ
  b : ℕ

/-- `RGB.to_ansi_fg`: truecolor foreground escape sequence. -/
def RGB.to_ansi_fg (c : RGB) : String :=
  "\x1b[38;2;" ++ toString c.r ++ ";" ++ toString c.g ++ ";" ++ toString c.b ++ "m"

/-- `RGB.to_ansi_bg`: truecolor background escape sequence. -/
def RGB.to_ansi_bg (c : RGB) : String :=
  "\x1b[48;2;" ++ toString c.r ++ ";" ++ toString c.g ++ ";" ++ toString c.b ++ "m"

/-- Python `f"{n:02x}"`: lowercase hex, left-padded with zeros to width 2. -/
def hex02 (n : ℕ) : String :=
  let ds := Nat.toDigits 16 n
  String.mk (List.replicate (2 - ds.length) (Char.ofNat 48) ++ ds)

/-- `RGB.to_html`: `#rrggbb` hex color. -/
def RGB.to_html (c : RGB) : String :=
  "#" ++ hex02 c.r ++ hex02 c.g ++ hex02 c.b

/-- `RGB.brightness`: perceived luminance `0.299 r + 0.587 g + 0.114 b`. -/
def RGB.brightness (c : RGB) : ℚ :=
  (0.299 : ℚ) * (c.r : ℚ) + (0.587 : ℚ) * (c.g : ℚ) + (0.114 : ℚ) * (c.b : ℚ)

/-- The `ColorMode` enum. -/
inductive ColorMode where
  | none
  | ansi
  | ansi_bg
  | html
  | html_bg
deriving DecidableEq

/-- `ColorHandler.RESET`. -/
def RESET : String := "\x1b[0m"

/-- `ColorHandler.format_character`: wrap one glyph with color metadata
according to the output mode. -/
def format_character (mode : ColorMode) (char : String) (color : Option RGB) :
    String :=
  match color with
  | Option.none => char
  | some c =>
    match mode with
    | ColorMode.none => char
    | ColorMode.ansi => c.to_ansi_fg ++ char ++ RESET
    | ColorMode.ansi_bg =>
      let text_color := if c.brightness < 128 then RGB.mk 255 255 255 else RGB.mk 0 0 0
      c.to_ansi_bg ++ text_color.to_ansi_fg ++ char ++ RESET
    | ColorMode.html =>
      let char :=
        if char = "<" then "&lt;"
        else if char = ">" then "&gt;"
        else if char = "&" then "&amp;"
        else if char = "\"" then "&quot;"
        else if char = " " then "&nbsp;"
        else char
      "<span style=\"color:" ++ c.to_html ++ "\">" ++ char ++ "</span>"
    | ColorMode.html_bg =>
      let text_color := if c.brightness < 128 then "#ffffff" else "#000000"
      let char := if char = " " then "&nbsp;" else char
      "<span style=\"background:" ++ c.to_html ++ ";color:" ++ text_color ++ "\">"
        ++ char ++ "</span>"

/-- `ColorHandler.format_emoji`: emoji are wrapped in a class-tagged span
under the HTML modes and passed through otherwise; the color argument is
ignored. -/
def format_emoji (mode : ColorMode) (emoji : String) (_color : Option RGB) :
    String :=
  if mode = ColorMode.html ∨ mode = ColorMode.html_bg then
    "<span class=\"emoji\">" ++ emoji ++ "</span>"
  else emoji

/-- `ColorHandler.format_line`: block-level wrapping of a completed row
under the HTML modes. -/
def format_line (mode : ColorMode) (line : String) : String :=
  if mode = ColorMode.html ∨ mode = ColorMode.html_bg then
    "<div class=\"ascii-line\">" ++ line ++ "</div>"
  else line

/-- `ColorHandler.wrap_output`: document framing.  Under the HTML modes the
joined rows are embedded in the standalone document shell (the f-string in
the source, with its CSS braces); otherwise the content passes through. -/
def wrap_output (mode : ColorMode) (content : String) (is_emoji : Bool) :
    String :=
  if mode = ColorMode.html ∨ mode = ColorMode.html_bg then
    let font_size := if is_emoji then "16px" else "10px"
    let line_height := if is_emoji then "18px" else "10px"
    let letter_spacing := if is_emoji then "2px" else "0px"
    "<!DOCTYPE html>\n<html lang=\"en\">\n<head>\n    <meta charset=\"UTF-8\">\n"
      ++ "    <meta name=\"viewport\" content=\"width=device-width, initial-scale=1.0\">\n"
      ++ "    <title>ASCII Art</title>\n    <style>\n"
      ++ "        * \x7b\n            margin: 0;\n            padding: 0;\n"
      ++ "            box-sizing: border-box;\n        \x7d\n"
      ++ "        body \x7b\n            background: #1a1a2e;\n            display: flex;\n"
      ++ "            justify-content: center;\n            align-items: center;\n"
      ++ "            min-height: 100vh;\n            padding: 20px;\n        \x7d\n"
      ++ "        .ascii-container \x7b\n            background: #16213e;\n"
      ++ "            padding: 20px;\n            border-radius: 10px;\n"
      ++ "            box-shadow: 0 10px 40px rgba(0, 0, 0, 0.5);\n"
      ++ "            overflow-x: auto;\n        \x7d\n"
      ++ "        .ascii-art \x7b\n"
      ++ "            font-family: \x27Courier New\x27, \x27Monaco\x27, \x27Menlo\x27, monospace;\n"
      ++ "            font-size: " ++ font_size ++ ";\n"
      ++ "            line-height: " ++ line_height ++ ";\n"
      ++ "            letter-spacing: " ++ letter_spacing ++ ";\n"
      ++ "            white-space: pre;\n        \x7d\n"
      ++ "        .ascii-line \x7b\n            display: block;\n        \x7d\n"
      ++ "        .emoji \x7b\n            display: inline;\n        \x7d\n"
      ++ "    </style>\n</head>\n<body>\n    <div class=\"ascii-container\">\n"
      ++ "        <div class=\"ascii-art\">\n"
      ++ content
      ++ "\n        </div>\n    </div>\n</body>\n</html>"
  else content

/-- Claim-side single-pass HTML escape of the five reserved characters
(`<`, `>`, `&`, `"`, space), each replaced exactly once. -/
def escapeOnce (ch : String) : String :=
  if ch = "<" then "&lt;"
  else if ch = ">" then "&gt;"
  else if ch = "&" then "&amp;"
  else if ch = "\"" then "&quot;"
  else if ch = " " then "&nbsp;"
  else ch

/-! ## image_processor: images and the Pixel Source collaborator -/

/-- One pixel: an RGB triple of `uint8` channels. -/
abbrev Pix := Fin 256 × Fin 256 × Fin 256

/-- A decoded raster image: dimensions plus a pixel accessor. -/
structure Image where
  width : ℕ
  height : ℕ
  pix : ℕ → ℕ → Pix

/-- The external Pixel Source (Pillow/OpenCV in the source).  The core
treats it as a capability surface: deterministic primitives that preserve
rectangular shape (§2/§6 of the design), with `resample` producing exactly
the requested dimensions.  Pixel-level behavior of the primitives is left
abstract; the claims below do not depend on it. -/
structure PixelSource where
  resample : Image → ℕ → ℕ → Image
  resample_w : ∀ img w h, (resample img w h).width = w
  resample_h : ∀ img w h, (resample img w h).height = h
  denoiseOp : Image → Image
  denoiseOp_w : ∀ img, (denoiseOp img).width = img.width
  denoiseOp_h : ∀ img, (denoiseOp img).height = img.height
  contrastOp : ℚ → Image → Image
  contrastOp_w : ∀ f img, (contrastOp f img).width = img.width
  contrastOp_h : ∀ f img, (contrastOp f img).height = img.height
  brightnessOp : ℚ → Image → Image
  brightnessOp_w : ∀ f img, (brightnessOp f img).width = img.width
  brightnessOp_h : ∀ f img, (brightnessOp f img).height = img.height
  autoEnhanceOp : Image → Image
  autoEnhanceOp_w : ∀ img, (autoEnhanceOp img).width = img.width
  autoEnhanceOp_h : ∀ img, (autoEnhanceOp img).height = img.height
  sharpenOp : ℚ → Image → Image
  sharpenOp_w : ∀ f img, (sharpenOp f img).width = img.width
  sharpenOp_h : ∀ f img, (sharpenOp f img).height = img.height
  edgeOp : Image → Image
  edgeOp_w : ∀ img, (edgeOp img).width = img.width
  edgeOp_h : ∀ img, (edgeOp img).height = img.height
  grayOp : Image → Image
  grayOp_w : ∀ img, (grayOp img).width = img.width
  grayOp_h : ∀ img, (grayOp img).height = img.height

/-- A trivial `PixelSource` instance used to evaluate concrete runs:
`resample` is nearest-neighbour-free reindexing (dimensions change, the
accessor is reused) and every filter is the identity. -/
def trivialPixelSource : PixelSource where
  resample := fun img w h => ⟨w, h, img.pix⟩
  resample_w := fun _ _ _ => rfl
  resample_h := fun _ _ _ => rfl
  denoiseOp := id
  denoiseOp_w := fun _ => rfl
  denoiseOp_h := fun _ => rfl
  contrastOp := fun _ img => img
  contrastOp_w := fun _ _ => rfl
  contrastOp_h := fun _ _ => rfl
  brightnessOp := fun _ img => img
  brightnessOp_w := fun _ _ => rfl
  brightnessOp_h := fun _ _ => rfl
  autoEnhanceOp := id
  autoEnhanceOp_w := fun _ => rfl
  autoEnhanceOp_h := fun _ => rfl
  sharpenOp := fun _ img => img
  sharpenOp_w := fun _ _ => rfl
  sharpenOp_h := fun _ _ => rfl
  edgeOp := id
  edgeOp_w := fun _ => rfl
  edgeOp_h := fun _ => rfl
  grayOp := id
  grayOp_w := fun _ => rfl
  grayOp_h := fun _ => rfl

/-- `ImageProcessor` state: the image as loaded (`original_image`, already
converted to RGB) and the working image (`processed_image`). -/
structure Proc where
  original : Image
  processed : Image

/-- `ImageProcessor.__init__` / `from_image`: the working image starts as a
copy of the original. -/
def initProc (img : Image) : Proc := ⟨img, img⟩

/-- `ImageProcessor.resize`: if `maintain_aspect`, derive the height as
`int(width × (original_height / original_width) × char_aspect_ratio)`
(note `int(...)` truncates); else use the given height, defaulting to
`width`.  Both dimensions are then clamped to a minimum of 1. -/
def Proc.resize (p : Proc) (lib : PixelSource) (width : ℤ) (height : Option ℤ)
    (maintain_aspect : Bool) (char_aspect : ℚ) : Proc :=
  let original_width := p.processed.width
  let original_height := p.processed.height
  let h : ℤ :=
    if maintain_aspect then
      pyInt ((width : ℚ) * ((original_height : ℚ) / (original_width : ℚ)) * char_aspect)
    else match height with
      | Option.none => width
      | some hh => hh
  let h := max 1 h
  let w := max 1 width
  { p with processed := lib.resample p.processed w.toNat h.toNat }

/-- `ImageProcessor.to_grayscale`. -/
def Proc.to_grayscale (p : Proc) (lib : PixelSource) : Proc :=
  { p with processed := lib.grayOp p.processed }

/-- `ImageProcessor.adjust_contrast`. -/
def Proc.adjust_contrast (p : Proc) (lib : PixelSource) (factor : ℚ) : Proc :=
  { p with processed := lib.contrastOp factor p.processed }

/-- `ImageProcessor.adjust_brightness`. -/
def Proc.adjust_brightness (p : Proc) (lib : PixelSource) (factor : ℚ) : Proc :=
  { p with processed := lib.brightnessOp factor p.processed }

/-- `ImageProcessor.sharpen`. -/
def Proc.sharpen (p : Proc) (lib : PixelSource) (factor : ℚ) : Proc :=
  { p with processed := lib.sharpenOp factor p.processed }

/-- `ImageProcessor.edge_detection` (either strategy yields a grayscale
image of the same dimensions). -/
def Proc.edge_detection (p : Proc) (lib : PixelSource) : Proc :=
  { p with processed := lib.edgeOp p.processed }

/-- `ImageProcessor.denoise`. -/
def Proc.denoise (p : Proc) (lib : PixelSource) : Proc :=
  { p with processed := lib.denoiseOp p.processed }

/-- `ImageProcessor.auto_enhance`. -/
def Proc.auto_enhance (p : Proc) (lib : PixelSource) : Proc :=
  { p with processed := lib.autoEnhanceOp p.processed }

/-- `ImageProcessor.get_pixel_matrix`: the working image as a
single-channel intensity buffer (`convert("L")`; the intensity of a cell is
read off the first component, `grayOp` yielding equal channels). -/
def Proc.get_pixel_matrix (p : Proc) (lib : PixelSource) : Image :=
  lib.grayOp p.processed

/-- `ImageProcessor.get_color_matrix`: resample the *original* image to the
working image's current dimensions. -/
def Proc.get_color_matrix (p : Proc) (lib : PixelSource) : Image :=
  lib.resample p.original p.processed.width p.processed.height

/-- `ImageProcessor.size`: `(width, height)` of the working image. -/
def Proc.size (p : Proc) : ℕ × ℕ := (p.processed.width, p.processed.height)

/-! ## ascii_converter: settings, pipeline, generation, convert -/

/-- `ConversionSettings`: the configuration record, with the source's
defaults.  Glyph tables are carried directly (name resolution to a table
happens at the boundary in the source). -/
structure ConversionSettings where
  width : ℤ := 100
  height : Option ℤ := Option.none
  charset : List String := DETAILED
  color_mode : ColorMode := ColorMode.none
  invert : Bool := false
  contrast : ℚ := 1.2
  brightness : ℚ := 1.0
  edge_detection : Bool := false
  denoise : Bool := true
  use_emoji : Bool := false
  emoji_set : List String := BRIGHTNESS
  color_emoji : Bool := false
  dithering : Bool := false
  sharpen : ℚ := 1.0
  auto_enhance : Bool := false

/-- The per-field keyword overrides accepted by `ASCIIConverter.convert`:
each recognized settings attribute may optionally be overridden (unknown
keys are ignored by the `hasattr` guard, hence absent here). -/
structure SettingsOverrides where
  width : Option ℤ := Option.none
  height : Option (Option ℤ) := Option.none
  charset : Option (List String) := Option.none
  color_mode : Option ColorMode := Option.none
  invert : Option Bool := Option.none
  contrast : Option ℚ := Option.none
  brightness : Option ℚ := Option.none
  edge_detection : Option Bool := Option.none
  denoise : Option Bool := Option.none
  use_emoji : Option Bool := Option.none
  emoji_set : Option (List String) := Option.none
  color_emoji : Option Bool := Option.none
  dithering : Option Bool := Option.none
  sharpen : Option ℚ := Option.none
  auto_enhance : Option Bool := Option.none

/-- No keyword overrides supplied. -/
def noOverrides : SettingsOverrides := {}

/-- The `setattr` loop in `ASCIIConverter.convert`: each supplied override
is written into the caller's settings object in place; this function gives
the object's resulting field values. -/
def applyOverrides (s : ConversionSettings) (k : SettingsOverrides) :
    ConversionSettings where
  width := k.width.getD s.width
  height := k.height.getD s.height
  charset := k.charset.getD s.charset
  color_mode := k.color_mode.getD s.color_mode
  invert := k.invert.getD s.invert
  contrast := k.contrast.getD s.contrast
  brightness := k.brightness.getD s.brightness
  edge_detection := k.edge_detection.getD s.edge_detection
  denoise := k.denoise.getD s.denoise
  use_emoji := k.use_emoji.getD s.use_emoji
  emoji_set := k.emoji_set.getD s.emoji_set
  color_emoji := k.color_emoji.getD s.color_emoji
  dithering := k.dithering.getD s.dithering
  sharpen := k.sharpen.getD s.sharpen
  auto_enhance := k.auto_enhance.getD s.auto_enhance

/-- The preprocessing operations, for observing which steps run and in
which order. -/
inductive PreOp where
  | denoise
  | contrast
  | brightness
  | autoEnhance
  | sharpen
  | resize
  | edgeDetect
  | grayscale
deriving DecidableEq, Repr

/-- One guarded preprocessing step, the shape of each
`if settings.X: self.processor.Y()` line in
`ASCIIConverter._apply_preprocessing`: when the guard holds, apply the
processor operation and record it in the trace. -/
def preStep (c : Prop) [Decidable c] (op : PreOp) (f : Proc → Proc)
    (x : Proc × List PreOp) : Proc × List PreOp :=
  if c then (f x.1, x.2 ++ [op]) else x

/-- The five guarded enhancement steps of
`ASCIIConverter._apply_preprocessing` before the resize, in source order:
denoise, contrast, brightness, auto-enhance, sharpen. -/
def preprocessChain (lib : PixelSource) (s : ConversionSettings) (p : Proc) :
    Proc × List PreOp :=
  preStep (s.sharpen ≠ 1) PreOp.sharpen (fun q => q.sharpen lib s.sharpen)
    (preStep s.auto_enhance PreOp.autoEnhance (fun q => q.auto_enhance lib)
      (preStep (s.brightness ≠ 1) PreOp.brightness
        (fun q => q.adjust_brightness lib s.brightness)
        (preStep (s.contrast ≠ 1) PreOp.contrast
          (fun q => q.adjust_contrast lib s.contrast)
          (preStep s.denoise PreOp.denoise (fun q => q.denoise lib)
            (p, [])))))

/-- `ASCIIConverter._apply_preprocessing`: the guarded enhancement chain,
then the resize (with the emoji-dependent character aspect ratio and
`maintain_aspect` exactly when no explicit height is configured), then
edge detection or grayscale conversion unless emoji mode is active;
paired with the trace of operations actually executed. -/
def apply_preprocessing (lib : PixelSource) (s : ConversionSettings)
    (p : Proc) : Proc × List PreOp :=
  let x := preprocessChain lib s p
  let char_aspect : ℚ := if s.use_emoji then 1.0 else 0.5
  let y : Proc × List PreOp :=
    (x.1.resize lib s.width s.height s.height.isNone char_aspect,
     x.2 ++ [PreOp.resize])
  if s.edge_detection ∧ ¬ s.use_emoji then
    (y.1.edge_detection lib, y.2 ++ [PreOp.edgeDetect])
  else if ¬ s.use_emoji then (y.1.to_grayscale lib, y.2 ++ [PreOp.grayscale])
  else y

/-- `ASCIIConverter._generate_ascii`: walk the intensity matrix in
row-major order, pick a glyph per cell (color-driven emoji, inverted, or
standard mapping), apply per-cell color formatting and per-line framing. -/
def generate_ascii (lib : PixelSource) (s : ConversionSettings) (p : Proc) :
    List String :=
  let grayscale_matrix := p.get_pixel_matrix lib
  let color_matrix : Option Image :=
    if s.color_mode ≠ ColorMode.none ∨ s.color_emoji then
      some (p.get_color_matrix lib)
    else Option.none
  let mapper := mkCharacterMapper s.charset
    (if s.use_emoji then some s.emoji_set else Option.none) s.use_emoji
  let height := grayscale_matrix.height
  let width := grayscale_matrix.width
  (List.range height).map (fun y =>
    let line := String.join ((List.range width).map (fun x =>
      let brightness : ℚ := ((grayscale_matrix.pix y x).1.val : ℚ)
      let char : String :=
        if s.use_emoji && s.color_emoji && color_matrix.isSome then
          match color_matrix with
          | some cm =>
            get_colored_emoji (cm.pix y x).1.val (cm.pix y x).2.1.val
              (cm.pix y x).2.2.val
          | Option.none => ""
        else if s.invert then (mapper.get_inverted_character brightness).getD ""
        else (mapper.get_character brightness).getD ""
      match color_matrix with
      | some cm =>
        if s.color_mode ≠ ColorMode.none then
          let color := RGB.mk (cm.pix y x).1.val (cm.pix y x).2.1.val
            (cm.pix y x).2.2.val
          if s.use_emoji then format_emoji s.color_mode char (some color)
          else format_character s.color_mode char (some color)
        else char
      | Option.none => char))
    if s.color_mode = ColorMode.html ∨ s.color_mode = ColorMode.html_bg then
      format_line s.color_mode line
    else line)

/-- `ASCIIArt`: the rendered artifact. -/
structure ASCIIArt where
  art : String
  width : ℕ
  height : ℕ
  colored : Bool
  is_emoji : Bool
  settings : ConversionSettings

/-- `ASCIIConverter.convert`: build the effective settings by writing the
keyword overrides into the caller's settings object (the second component
of the result is that object's state after the call), run preprocessing,
generate and frame the ASCII text, and package the artifact. -/
def convert (lib : PixelSource) (settings : ConversionSettings)
    (kwargs : SettingsOverrides) (img : Image) :
    ASCIIArt × ConversionSettings :=
  let s := applyOverrides settings kwargs
  let p := (apply_preprocessing lib s (initProc img)).1
  let ascii_lines := generate_ascii lib s p
  let formatted_art :=
    wrap_output s.color_mode (String.intercalate "\n" ascii_lines) s.use_emoji
  ({ art := formatted_art,
     width := p.size.1,
     height := p.size.2,
     colored := decide (s.color_mode ≠ ColorMode.none),
     is_emoji := s.use_emoji,
     settings := s }, s)

/-! ## Helper lemmas -/

theorem pyInt_eq_floor (x : ℚ) (h : 0 ≤ x) : pyInt x = ⌊x⌋ := if_pos h

/-- For a non-empty table the code's truncating index computation agrees
with the specification's half-up-rounded index formula. -/
theorem charIndex_eq_spec (m : CharacterMapper) (b : ℚ)
    (h : 1 ≤ m.num_chars) :
    m.charIndex b = specGlyphIndex m.num_chars b := by
  have hb : (0:ℚ) ≤ max 0 (min 255 b) := le_max_left 0 _
  have hn : (0:ℚ) ≤ (m.num_chars : ℚ) - 1 := by
    have h1 : (1:ℚ) ≤ (m.num_chars : ℚ) := by exact_mod_cast h
    linarith
  have hx : (0:ℚ) ≤ max 0 (min 255 b) / 255 * ((m.num_chars : ℚ) - 1) + 0.5 := by
    have h2 : (0:ℚ) ≤ max 0 (min 255 b) / 255 :=
      div_nonneg hb (by norm_num)
    have h3 : (0:ℚ) ≤ max 0 (min 255 b) / 255 * ((m.num_chars : ℚ) - 1) :=
      mul_nonneg h2 hn
    have h4 : (0:ℚ) ≤ (0.5 : ℚ) := by norm_num
    linarith
  simp only [CharacterMapper.charIndex, specGlyphIndex, roundHalfUp, pyInt,
    if_pos hx]
  norm_num

theorem specGlyphIndex_zero (n : ℕ) (h : 1 ≤ n) : specGlyphIndex n 0 = 0 := by
  have h0 : (0:ℤ) ≤ (n:ℤ) - 1 := by
    have h1 : (1:ℤ) ≤ (n:ℤ) := by exact_mod_cast h
    omega
  have e1 : (max 0 (min 255 (0:ℚ))) = 0 := by
    rw [min_eq_right (by norm_num : (0:ℚ) ≤ 255), max_self]
  simp only [specGlyphIndex, roundHalfUp, e1, zero_div, zero_mul, zero_add]
  have e2 : ⌊(1/2 : ℚ)⌋ = 0 := by norm_num
  rw [e2, min_eq_left h0, max_self]

theorem specGlyphIndex_max (n : ℕ) (h : 1 ≤ n) :
    specGlyphIndex n 255 = (n:ℤ) - 1 := by
  have h1 : (1:ℤ) ≤ (n:ℤ) := by exact_mod_cast h
  have e1 : (max 0 (min 255 (255:ℚ))) = 255 := by
    rw [min_self]
    exact max_eq_right (by norm_num)
  have e2 : (255:ℚ)/255 = 1 := by norm_num
  simp only [specGlyphIndex, roundHalfUp, e1, e2, one_mul]
  have e3 : ((n:ℚ) - 1 + 1/2) = (1/2 : ℚ) + (((n:ℤ) - 1 : ℤ) : ℚ) := by
    push_cast
    ring
  have e4 : ⌊(1/2:ℚ)⌋ = 0 := by norm_num
  rw [e3, Int.floor_add_int, e4, zero_add, min_self,
    max_eq_right (by omega : (0:ℤ) ≤ (n:ℤ) - 1)]

/-! ## Claim theorems: glyph mapper -/

/-- C1: for every glyph table of length `n ≥ 1` and every brightness `b`,
`get_character` returns `table[index(b)]` with
`index(b) = round(clamp(b,0,255)/255 × (n−1))` under half-up rounding,
clamped again to `[0, n−1]`; in particular `index(0) = 0` and
`index(255) = n−1`. -/
theorem glyph_mapper_index_spec (chars : List String) (b : ℚ)
    (h : 1 ≤ chars.length) :
    (CharacterMapper.mk chars false).get_character b
        = chars.get? (specGlyphIndex chars.length b).toNat
    ∧ specGlyphIndex chars.length 0 = 0
    ∧ specGlyphIndex chars.length 255 = (chars.length : ℤ) - 1 := by
  refine ⟨?_, specGlyphIndex_zero chars.length h, specGlyphIndex_max chars.length h⟩
  show chars.get? ((CharacterMapper.mk chars false).charIndex b).toNat = _
  have h2 : 1 ≤ (CharacterMapper.mk chars false).num_chars := h
  rw [charIndex_eq_spec _ _ h2]
  rfl

/-- Witness for C1 at the `SIMPLE` table and brightness 100. -/
theorem glyph_mapper_index_spec_witness :
    1 ≤ SIMPLE.length
    ∧ ((CharacterMapper.mk SIMPLE false).get_character 100
          = SIMPLE.get? (specGlyphIndex SIMPLE.length 100).toNat
       ∧ specGlyphIndex SIMPLE.length 0 = 0
       ∧ specGlyphIndex SIMPLE.length 255 = (SIMPLE.length : ℤ) - 1) :=
  ⟨by decide, glyph_mapper_index_spec SIMPLE 100 (by decide)⟩

/-- C10: inverted mapping satisfies
`glyph_inverted(b) = glyph(255 − b)` over the same table (for every
brightness, in particular every `b ∈ [0,255]`). -/
theorem inverted_glyph_relation (chars : List String) (em : Bool) (b : ℚ) :
    (CharacterMapper.mk chars em).get_inverted_character b
      = (CharacterMapper.mk chars em).get_character (255 - b) := rfl

/-- C3: color-driven emoji classification follows the specified decision
order and thresholds (black below mean 30, white above mean 225, then the
dominant-channel tree), and maps the five reference triples accordingly. -/
theorem colored_emoji_classification :
    (∀ r g b : ℕ, get_colored_emoji r g b = specColorClass r g b)
    ∧ get_colored_emoji 10 10 10 = "⬛"
    ∧ get_colored_emoji 245 245 245 = "⬜"
    ∧ get_colored_emoji 220 180 10 = "🟨"
    ∧ get_colored_emoji 0 200 0 = "🟩"
    ∧ get_colored_emoji 10 10 220 = "🟦" := by
  refine ⟨fun r g b => ?_, ?_, ?_, ?_, ?_, ?_⟩
  · have hr : (r = max r (max g b)) ↔ (g ≤ r ∧ b ≤ r) := by
      rw [eq_comm, max_eq_left_iff, max_le_iff]
    have hg : (g = max r (max g b)) ↔ (r ≤ g ∧ b ≤ g) := by
      constructor
      · intro hEq
        constructor <;> omega
      · intro hle
        omega
    simp only [get_colored_emoji, specColorClass, gt_iff_lt, hr, hg]
  · have h1 : (((10:ℕ):ℚ) + ((10:ℕ):ℚ) + ((10:ℕ):ℚ))/3 < 30 := by norm_num
    simp only [get_colored_emoji, if_pos h1]
  · have h1 : ¬ ((((245:ℕ):ℚ) + ((245:ℕ):ℚ) + ((245:ℕ):ℚ))/3 < 30) := by norm_num
    have h2 : (((245:ℕ):ℚ) + ((245:ℕ):ℚ) + ((245:ℕ):ℚ))/3 > 225 := by norm_num
    simp only [get_colored_emoji, if_neg h1, if_pos h2]
  · have h1 : ¬ ((((220:ℕ):ℚ) + ((180:ℕ):ℚ) + ((10:ℕ):ℚ))/3 < 30) := by norm_num
    have h2 : ¬ ((((220:ℕ):ℚ) + ((180:ℕ):ℚ) + ((10:ℕ):ℚ))/3 > 225) := by norm_num
    simp only [get_colored_emoji, if_neg h1, if_neg h2]
    decide
  · have h1 : ¬ ((((0:ℕ):ℚ) + ((200:ℕ):ℚ) + ((0:ℕ):ℚ))/3 < 30) := by norm_num
    have h2 : ¬ ((((0:ℕ):ℚ) + ((200:ℕ):ℚ) + ((0:ℕ):ℚ))/3 > 225) := by norm_num
    simp only [get_colored_emoji, if_neg h1, if_neg h2]
    decide
  · have h1 : ¬ ((((10:ℕ):ℚ) + ((10:ℕ):ℚ) + ((220:ℕ):ℚ))/3 < 30) := by norm_num
    have h2 : ¬ ((((10:ℕ):ℚ) + ((10:ℕ):ℚ) + ((220:ℕ):ℚ))/3 > 225) := by norm_num
    simp only [get_colored_emoji, if_neg h1, if_neg h2]
    decide

/-! ## Claim theorems: color formatter -/

/-- C4 counterexample: under `html_bg` the glyph `<` is passed through
unescaped (the mode escapes only the space), contradicting the claim that
both HTML modes escape all five reserved characters. -/
theorem html_bg_unescaped_counterexample :
    format_character ColorMode.html_bg "<" (some (RGB.mk 200 10 10))
        = "<span style=\"background:#c80a0a;color:#ffffff\"><</span>"
    ∧ format_character ColorMode.html_bg "<" (some (RGB.mk 200 10 10))
        ≠ "<span style=\"background:#c80a0a;color:#ffffff\">&lt;</span>" := by
  have hb : (RGB.mk 200 10 10).brightness < 128 := by
    norm_num [RGB.brightness]
  constructor
  · simp only [format_character]
    rw [if_pos hb]
    decide
  · simp only [format_character]
    rw [if_pos hb]
    decide

/-- C4 (amended): `html` mode escapes each of the five reserved characters
(`<`, `>`, `&`, `"`, space) exactly once in a single pass before wrapping
in the styled span; `html_bg` mode escapes only the space and passes every
other glyph through unescaped. -/
theorem html_escape_behavior (c : RGB) (ch : String) :
    format_character ColorMode.html ch (some c)
        = "<span style=\"color:" ++ c.to_html ++ "\">" ++ escapeOnce ch ++ "</span>"
    ∧ format_character ColorMode.html_bg ch (some c)
        = "<span style=\"background:" ++ c.to_html ++ ";color:"
            ++ (if c.brightness < 128 then "#ffffff" else "#000000") ++ "\">"
            ++ (if ch = " " then "&nbsp;" else ch) ++ "</span>" := by
  constructor <;> rfl

/-- C5: `ansi_bg` formatting computes luminance `0.299r+0.587g+0.114b`,
selects a white foreground exactly when it is below 128 and black
otherwise (white at luminance 0 and 127, black at 128 and 255), and wraps
the glyph in background + contrasting foreground + reset. -/
theorem ansi_bg_contrast :
    (∀ (c : RGB) (ch : String),
      format_character ColorMode.ansi_bg ch (some c)
        = c.to_ansi_bg
          ++ (if c.brightness < 128 then RGB.mk 255 255 255 else RGB.mk 0 0 0).to_ansi_fg
          ++ ch ++ RESET)
    ∧ (RGB.mk 0 0 0).brightness = 0
    ∧ (RGB.mk 127 127 127).brightness = 127
    ∧ (RGB.mk 128 128 128).brightness = 128
    ∧ (RGB.mk 255 255 255).brightness = 255
    ∧ format_character ColorMode.ansi_bg "x" (some (RGB.mk 0 0 0))
        = (RGB.mk 0 0 0).to_ansi_bg ++ (RGB.mk 255 255 255).to_ansi_fg ++ "x" ++ RESET
    ∧ format_character ColorMode.ansi_bg "x" (some (RGB.mk 127 127 127))
        = (RGB.mk 127 127 127).to_ansi_bg ++ (RGB.mk 255 255 255).to_ansi_fg ++ "x" ++ RESET
    ∧ format_character ColorMode.ansi_bg "x" (some (RGB.mk 128 128 128))
        = (RGB.mk 128 128 128).to_ansi_bg ++ (RGB.mk 0 0 0).to_ansi_fg ++ "x" ++ RESET
    ∧ format_character ColorMode.ansi_bg "x" (some (RGB.mk 255 255 255))
        = (RGB.mk 255 255 255).to_ansi_bg ++ (RGB.mk 0 0 0).to_ansi_fg ++ "x" ++ RESET := by
  have b0 : (RGB.mk 0 0 0).brightness = 0 := by norm_num [RGB.brightness]
  have b127 : (RGB.mk 127 127 127).brightness = 127 := by norm_num [RGB.brightness]
  have b128 : (RGB.mk 128 128 128).brightness = 128 := by norm_num [RGB.brightness]
  have b255 : (RGB.mk 255 255 255).brightness = 255 := by norm_num [RGB.brightness]
  refine ⟨fun c ch => rfl, b0, b127, b128, b255, ?_, ?_, ?_, ?_⟩
  · simp only [format_character]
    rw [if_pos (show (RGB.mk 0 0 0).brightness < 128 by rw [b0]; norm_num)]
  · simp only [format_character]
    rw [if_pos (show (RGB.mk 127 127 127).brightness < 128 by rw [b127]; norm_num)]
  · simp only [format_character]
    rw [if_neg (show ¬ (RGB.mk 128 128 128).brightness < 128 by rw [b128]; norm_num)]
  · simp only [format_character]
    rw [if_neg (show ¬ (RGB.mk 255 255 255).brightness < 128 by rw [b255]; norm_num)]

/-! ## Pipeline helper lemmas -/

/-- A guarded step whose operation keeps the original image intact keeps
the original image intact. -/
theorem preStep_original (c : Prop) [Decidable c] (op : PreOp)
    (f : Proc → Proc) (x : Proc × List PreOp)
    (hf : ∀ q, (f q).original = q.original) :
    (preStep c op f x).1.original = x.1.original := by
  rw [preStep]
  split_ifs with h
  · exact hf x.1
  · rfl

/-- A guarded step whose operation preserves the working image's width
preserves it. -/
theorem preStep_width (c : Prop) [Decidable c] (op : PreOp)
    (f : Proc → Proc) (x : Proc × List PreOp)
    (hf : ∀ q, (f q).processed.width = q.processed.width) :
    (preStep c op f x).1.processed.width = x.1.processed.width := by
  rw [preStep]
  split_ifs with h
  · exact hf x.1
  · rfl

/-- A guarded step whose operation preserves the working image's height
preserves it. -/
theorem preStep_height (c : Prop) [Decidable c] (op : PreOp)
    (f : Proc → Proc) (x : Proc × List PreOp)
    (hf : ∀ q, (f q).processed.height = q.processed.height) :
    (preStep c op f x).1.processed.height = x.1.processed.height := by
  rw [preStep]
  split_ifs with h
  · exact hf x.1
  · rfl

/-- The trace contribution of one guarded step. -/
theorem preStep_trace (c : Prop) [Decidable c] (op : PreOp)
    (f : Proc → Proc) (x : Proc × List PreOp) :
    (preStep c op f x).2 = x.2 ++ (if c then [op] else []) := by
  rw [preStep]
  split_ifs with h
  · rfl
  · simp

/-- The enhancement chain never touches the original image. -/
theorem preprocessChain_original (lib : PixelSource)
    (s : ConversionSettings) (p : Proc) :
    (preprocessChain lib s p).1.original = p.original := by
  rw [preprocessChain]
  rw [preStep_original _ _ (fun q => q.sharpen lib s.sharpen) _ (fun q => rfl)]
  rw [preStep_original _ _ (fun q => q.auto_enhance lib) _ (fun q => rfl)]
  rw [preStep_original _ _ (fun q => q.adjust_brightness lib s.brightness) _
    (fun q => rfl)]
  rw [preStep_original _ _ (fun q => q.adjust_contrast lib s.contrast) _
    (fun q => rfl)]
  rw [preStep_original _ _ (fun q => q.denoise lib) _ (fun q => rfl)]

/-- The enhancement chain preserves the working image's width (the Pixel
Source's filters are shape-preserving). -/
theorem preprocessChain_width (lib : PixelSource)
    (s : ConversionSettings) (p : Proc) :
    (preprocessChain lib s p).1.processed.width = p.processed.width := by
  rw [preprocessChain]
  rw [preStep_width _ _ _ _ (fun q => lib.sharpenOp_w s.sharpen q.processed)]
  rw [preStep_width _ _ _ _ (fun q => lib.autoEnhanceOp_w q.processed)]
  rw [preStep_width _ _ _ _ (fun q => lib.brightnessOp_w s.brightness q.processed)]
  rw [preStep_width _ _ _ _ (fun q => lib.contrastOp_w s.contrast q.processed)]
  rw [preStep_width _ _ _ _ (fun q => lib.denoiseOp_w q.processed)]

/-- The enhancement chain preserves the working image's height. -/
theorem preprocessChain_height (lib : PixelSource)
    (s : ConversionSettings) (p : Proc) :
    (preprocessChain lib s p).1.processed.height = p.processed.height := by
  rw [preprocessChain]
  rw [preStep_height _ _ _ _ (fun q => lib.sharpenOp_h s.sharpen q.processed)]
  rw [preStep_height _ _ _ _ (fun q => lib.autoEnhanceOp_h q.processed)]
  rw [preStep_height _ _ _ _ (fun q => lib.brightnessOp_h s.brightness q.processed)]
  rw [preStep_height _ _ _ _ (fun q => lib.contrastOp_h s.contrast q.processed)]
  rw [preStep_height _ _ _ _ (fun q => lib.denoiseOp_h q.processed)]

/-- The trace of the enhancement chain, in source order. -/
theorem preprocessChain_trace (lib : PixelSource)
    (s : ConversionSettings) (p : Proc) :
    (preprocessChain lib s p).2 =
      (if s.denoise then [PreOp.denoise] else [])
      ++ (if s.contrast ≠ 1 then [PreOp.contrast] else [])
      ++ (if s.brightness ≠ 1 then [PreOp.brightness] else [])
      ++ (if s.auto_enhance then [PreOp.autoEnhance] else [])
      ++ (if s.sharpen ≠ 1 then [PreOp.sharpen] else []) := by
  rw [preprocessChain]
  rw [preStep_trace, preStep_trace, preStep_trace, preStep_trace, preStep_trace]
  simp [List.append_assoc]

/-- Preprocessing never touches the original image: every processor
operation rewrites only the working image. -/
theorem apply_preprocessing_original (lib : PixelSource)
    (s : ConversionSettings) (p : Proc) :
    ((apply_preprocessing lib s p).1).original = p.original := by
  simp only [apply_preprocessing]
  split_ifs <;> exact preprocessChain_original lib s p

/-- The working image's width after preprocessing is the clamped
configured width. -/
theorem apply_preprocessing_width (lib : PixelSource)
    (s : ConversionSettings) (p : Proc) :
    ((apply_preprocessing lib s p).1).processed.width
      = (max 1 s.width).toNat := by
  simp only [apply_preprocessing]
  split_ifs <;>
    simp [Proc.edge_detection, Proc.to_grayscale, Proc.resize, lib.edgeOp_w,
      lib.grayOp_w, lib.resample_w]

/-- The working image's height after preprocessing: the explicit height
when one is configured, otherwise the truncated aspect-derived height,
clamped to a minimum of 1. -/
theorem apply_preprocessing_height (lib : PixelSource)
    (s : ConversionSettings) (p : Proc) :
    ((apply_preprocessing lib s p).1).processed.height
      = (max 1 (match s.height with
          | Option.none => pyInt ((s.width : ℚ)
              * ((p.processed.height : ℚ) / (p.processed.width : ℚ))
              * (if s.use_emoji then 1.0 else 0.5))
          | some hexp => hexp)).toNat := by
  rcases hsh : s.height with _ | hexp <;>
    simp only [apply_preprocessing, hsh] <;>
    split_ifs <;>
    simp [Proc.edge_detection, Proc.to_grayscale, Proc.resize, lib.edgeOp_h,
      lib.grayOp_h, lib.resample_h, preprocessChain_width,
      preprocessChain_height]

/-! ## Claim theorems: preprocessing pipeline -/

/-- C2 counterexample: on a 3×1 source at width 100 in glyph mode, the
code's `int(...)` truncation yields height 16, while the claimed half-up
rounding of `100 × (1/3) × 0.5` is 17. -/
theorem resize_rounding_counterexample :
    ((apply_preprocessing trivialPixelSource ({ width := 100 } : ConversionSettings)
        (initProc ⟨3, 1, fun _ _ => (128, 128, 128)⟩)).1).processed.height = 16
    ∧ roundHalfUp ((100 : ℚ) * ((1 : ℚ) / (3 : ℚ)) * (1/2)) = 17
    ∧ ((((apply_preprocessing trivialPixelSource ({ width := 100 } : ConversionSettings)
        (initProc ⟨3, 1, fun _ _ => (128, 128, 128)⟩)).1).processed.height : ℤ)
        ≠ roundHalfUp ((100 : ℚ) * ((1 : ℚ) / (3 : ℚ)) * (1/2))) := by
  have e1 : ((apply_preprocessing trivialPixelSource
      ({ width := 100 } : ConversionSettings)
      (initProc ⟨3, 1, fun _ _ => (128, 128, 128)⟩)).1).processed.height = 16 := by
    rw [apply_preprocessing_height]
    norm_num [pyInt, initProc]
    decide
  have e2 : roundHalfUp ((100 : ℚ) * ((1 : ℚ) / (3 : ℚ)) * (1/2)) = 17 := by
    norm_num [roundHalfUp]
  refine ⟨e1, e2, ?_⟩
  rw [e1, e2]
  decide

/-- C2 (amended): with no explicit height, the resize step derives the
height as `int(W × (oh/ow) × a)` — truncation toward zero, not half-up
rounding — with `a = 1.0` in emoji mode and `0.5` in glyph mode; an
explicit height is used directly; both dimensions are clamped to a
minimum of 1. -/
theorem resize_dimension_formula (lib : PixelSource) (s : ConversionSettings)
    (img : Image) (hw : 1 ≤ img.width) (hh : 1 ≤ img.height) :
    ((apply_preprocessing lib s (initProc img)).1).processed.width
        = (max 1 s.width).toNat
    ∧ ((apply_preprocessing lib s (initProc img)).1).processed.height
        = (max 1 (match s.height with
            | Option.none => pyInt ((s.width : ℚ)
                * ((img.height : ℚ) / (img.width : ℚ))
                * (if s.use_emoji then 1.0 else 0.5))
            | some hexp => hexp)).toNat :=
  ⟨apply_preprocessing_width lib s (initProc img),
   apply_preprocessing_height lib s (initProc img)⟩

/-- Witness for C2 (amended) on a 200×100 source at width 100: the design
document's worked example. -/
theorem resize_dimension_formula_witness :
    1 ≤ (⟨200, 100, fun _ _ => (128, 128, 128)⟩ : Image).width
    ∧ 1 ≤ (⟨200, 100, fun _ _ => (128, 128, 128)⟩ : Image).height
    ∧ (((apply_preprocessing trivialPixelSource
          ({ width := 100 } : ConversionSettings)
          (initProc ⟨200, 100, fun _ _ => (128, 128, 128)⟩)).1).processed.width
        = (max 1 ({ width := 100 } : ConversionSettings).width).toNat
      ∧ ((apply_preprocessing trivialPixelSource
          ({ width := 100 } : ConversionSettings)
          (initProc ⟨200, 100, fun _ _ => (128, 128, 128)⟩)).1).processed.height
        = (max 1 (match ({ width := 100 } : ConversionSettings).height with
            | Option.none => pyInt ((({ width := 100 } : ConversionSettings).width : ℚ)
                * (((⟨200, 100, fun _ _ => (128, 128, 128)⟩ : Image).height : ℚ)
                    / ((⟨200, 100, fun _ _ => (128, 128, 128)⟩ : Image).width : ℚ))
                * (if ({ width := 100 } : ConversionSettings).use_emoji then 1.0 else 0.5))
            | some hexp => hexp)).toNat) :=
  ⟨by decide, by decide,
   resize_dimension_formula trivialPixelSource
     ({ width := 100 } : ConversionSettings)
     ⟨200, 100, fun _ _ => (128, 128, 128)⟩ (by decide) (by decide)⟩

/-- C8: preprocessing applies enabled operations in the fixed order
denoise → contrast → brightness → auto-enhance → sharpen → resize →
(edge-detection or grayscale); each optional step is skipped when its
factor is neutral (1.0) or its flag is false, and the final
edge/grayscale step is skipped entirely in emoji mode. -/
theorem preprocessing_order (lib : PixelSource) (s : ConversionSettings)
    (p : Proc) :
    (apply_preprocessing lib s p).2 =
      (if s.denoise then [PreOp.denoise] else [])
      ++ (if s.contrast ≠ 1 then [PreOp.contrast] else [])
      ++ (if s.brightness ≠ 1 then [PreOp.brightness] else [])
      ++ (if s.auto_enhance then [PreOp.autoEnhance] else [])
      ++ (if s.sharpen ≠ 1 then [PreOp.sharpen] else [])
      ++ [PreOp.resize]
      ++ (if s.use_emoji then []
          else if s.edge_detection then [PreOp.edgeDetect]
          else [PreOp.grayscale]) := by
  simp only [apply_preprocessing]
  split_ifs with h1 h2 <;>
    simp_all [preprocessChain_trace, List.append_assoc]

/-- C9: whenever a color matrix is produced (color mode active or
color-driven emoji), it is the *original* source image — not the
preprocessed working image — resampled to exactly the intensity matrix's
dimensions, so both matrices have equal dimensions and every channel
value lies in [0,255]. -/
theorem color_matrix_from_original (lib : PixelSource)
    (s : ConversionSettings) (img : Image)
    (h : s.color_mode ≠ ColorMode.none ∨ s.color_emoji = true) :
    ((apply_preprocessing lib s (initProc img)).1).get_color_matrix lib
        = lib.resample img
            (((apply_preprocessing lib s (initProc img)).1).get_pixel_matrix lib).width
            (((apply_preprocessing lib s (initProc img)).1).get_pixel_matrix lib).height
    ∧ (((apply_preprocessing lib s (initProc img)).1).get_color_matrix lib).width
        = (((apply_preprocessing lib s (initProc img)).1).get_pixel_matrix lib).width
    ∧ (((apply_preprocessing lib s (initProc img)).1).get_color_matrix lib).height
        = (((apply_preprocessing lib s (initProc img)).1).get_pixel_matrix lib).height
    ∧ ∀ y x,
        ((((apply_preprocessing lib s (initProc img)).1).get_color_matrix lib).pix y x).1.val ≤ 255
        ∧ ((((apply_preprocessing lib s (initProc img)).1).get_color_matrix lib).pix y x).2.1.val ≤ 255
        ∧ ((((apply_preprocessing lib s (initProc img)).1).get_color_matrix lib).pix y x).2.2.val ≤ 255 := by
  have ho : ((apply_preprocessing lib s (initProc img)).1).original = img :=
    apply_preprocessing_original lib s (initProc img)
  refine ⟨?_, ?_, ?_, ?_⟩
  · rw [Proc.get_color_matrix, Proc.get_pixel_matrix, ho, lib.grayOp_w, lib.grayOp_h]
  · rw [Proc.get_color_matrix, Proc.get_pixel_matrix, lib.resample_w, lib.grayOp_w]
  · rw [Proc.get_color_matrix, Proc.get_pixel_matrix, lib.resample_h, lib.grayOp_h]
  · intro y x
    exact ⟨Fin.is_le _, Fin.is_le _, Fin.is_le _⟩

/-- Witness for C9 with an active ANSI color mode on a 2×2 source. -/
theorem color_matrix_from_original_witness :
    (({ color_mode := ColorMode.ansi } : ConversionSettings).color_mode ≠ ColorMode.none
      ∨ ({ color_mode := ColorMode.ansi } : ConversionSettings).color_emoji = true)
    ∧ (((apply_preprocessing trivialPixelSource
          ({ color_mode := ColorMode.ansi } : ConversionSettings)
          (initProc ⟨2, 2, fun _ _ => (128, 128, 128)⟩)).1).get_color_matrix trivialPixelSource
        = trivialPixelSource.resample ⟨2, 2, fun _ _ => (128, 128, 128)⟩
            (((apply_preprocessing trivialPixelSource
                ({ color_mode := ColorMode.ansi } : ConversionSettings)
                (initProc ⟨2, 2, fun _ _ => (128, 128, 128)⟩)).1).get_pixel_matrix trivialPixelSource).width
            (((apply_preprocessing trivialPixelSource
                ({ color_mode := ColorMode.ansi } : ConversionSettings)
                (initProc ⟨2, 2, fun _ _ => (128, 128, 128)⟩)).1).get_pixel_matrix trivialPixelSource).height
      ∧ (((apply_preprocessing trivialPixelSource
            ({ color_mode := ColorMode.ansi } : ConversionSettings)
            (initProc ⟨2, 2, fun _ _ => (128, 128, 128)⟩)).1).get_color_matrix trivialPixelSource).width
          = (((apply_preprocessing trivialPixelSource
              ({ color_mode := ColorMode.ansi } : ConversionSettings)
              (initProc ⟨2, 2, fun _ _ => (128, 128, 128)⟩)).1).get_pixel_matrix trivialPixelSource).width
      ∧ (((apply_preprocessing trivialPixelSource
            ({ color_mode := ColorMode.ansi } : ConversionSettings)
            (initProc ⟨2, 2, fun _ _ => (128, 128, 128)⟩)).1).get_color_matrix trivialPixelSource).height
          = (((apply_preprocessing trivialPixelSource
              ({ color_mode := ColorMode.ansi } : ConversionSettings)
              (initProc ⟨2, 2, fun _ _ => (128, 128, 128)⟩)).1).get_pixel_matrix trivialPixelSource).height
      ∧ ∀ y x,
          ((((apply_preprocessing trivialPixelSource
              ({ color_mode := ColorMode.ansi } : ConversionSettings)
              (initProc ⟨2, 2, fun _ _ => (128, 128, 128)⟩)).1).get_color_matrix trivialPixelSource).pix y x).1.val ≤ 255
          ∧ ((((apply_preprocessing trivialPixelSource
              ({ color_mode := ColorMode.ansi } : ConversionSettings)
              (initProc ⟨2, 2, fun _ _ => (128, 128, 128)⟩)).1).get_color_matrix trivialPixelSource).pix y x).2.1.val ≤ 255
          ∧ ((((apply_preprocessing trivialPixelSource
              ({ color_mode := ColorMode.ansi } : ConversionSettings)
              (initProc ⟨2, 2, fun _ _ => (128, 128, 128)⟩)).1).get_color_matrix trivialPixelSource).pix y x).2.2.val ≤ 255) :=
  ⟨Or.inl (by decide),
   color_matrix_from_original trivialPixelSource
     ({ color_mode := ColorMode.ansi } : ConversionSettings)
     ⟨2, 2, fun _ _ => (128, 128, 128)⟩ (Or.inl (by decide))⟩

/-! ## Claim theorems: orchestrator -/

/-- C6 counterexample: converting with configured width 0 is not rejected
— no configuration validation exists — and an artifact is produced, with
the resize step clamping both dimensions to 1. -/
theorem width_zero_artifact_counterexample :
    (convert trivialPixelSource ({ width := 0 } : ConversionSettings) noOverrides
        ⟨2, 2, fun _ _ => (128, 128, 128)⟩).1.width = 1
    ∧ (convert trivialPixelSource ({ width := 0 } : ConversionSettings) noOverrides
        ⟨2, 2, fun _ _ => (128, 128, 128)⟩).1.height = 1 := by
  constructor
  · show ((apply_preprocessing trivialPixelSource
      (applyOverrides ({ width := 0 } : ConversionSettings) noOverrides)
      (initProc ⟨2, 2, fun _ _ => (128, 128, 128)⟩)).1).processed.width = 1
    rw [apply_preprocessing_width]
    decide
  · show ((apply_preprocessing trivialPixelSource
      (applyOverrides ({ width := 0 } : ConversionSettings) noOverrides)
      (initProc ⟨2, 2, fun _ _ => (128, 128, 128)⟩)).1).processed.height = 1
    rw [apply_preprocessing_height]
    norm_num [pyInt, initProc, applyOverrides, noOverrides]

/-- C6 (amended): a non-positive configured width is not rejected — the
source defines no `InvalidConfiguration` error and `convert` performs no
validation — instead the pipeline runs and the resize step clamps the
width to 1, producing an artifact of width 1. -/
theorem nonpositive_width_clamped (lib : PixelSource)
    (s : ConversionSettings) (img : Image) (h : s.width ≤ 0) :
    (convert lib s noOverrides img).1.width = 1 := by
  show ((apply_preprocessing lib (applyOverrides s noOverrides)
      (initProc img)).1).processed.width = 1
  rw [apply_preprocessing_width]
  have e : (applyOverrides s noOverrides).width = s.width := rfl
  rw [e, max_eq_left (h.trans (by norm_num))]
  rfl

/-- Witness for C6 (amended) at width 0. -/
theorem nonpositive_width_clamped_witness :
    ({ width := 0 } : ConversionSettings).width ≤ 0
    ∧ (convert trivialPixelSource ({ width := 0 } : ConversionSettings)
        noOverrides ⟨2, 2, fun _ _ => (128, 128, 128)⟩).1.width = 1 :=
  ⟨by decide,
   nonpositive_width_clamped trivialPixelSource
     ({ width := 0 } : ConversionSettings)
     ⟨2, 2, fun _ _ => (128, 128, 128)⟩ (by decide)⟩

/-- C7 counterexample: a call that overrides `width` mutates the caller's
settings object: the record passed in with width 100 reads back width 50
after the call. -/
theorem settings_mutation_counterexample :
    ((convert trivialPixelSource ({} : ConversionSettings)
        ({ width := some 50 } : SettingsOverrides)
        ⟨2, 2, fun _ _ => (128, 128, 128)⟩).2).width = 50
    ∧ ({} : ConversionSettings).width = 100 :=
  ⟨rfl, rfl⟩

/-- C7 (amended): the settings record is not immutable — `convert` writes
each supplied override into the caller's record in place; a field keeps
its value exactly when no override names it, and with no overrides the
record is unchanged. -/
theorem convert_settings_effect (lib : PixelSource) (s : ConversionSettings)
    (k : SettingsOverrides) (img : Image) :
    (convert lib s k img).2 = applyOverrides s k
    ∧ (convert lib s noOverrides img).2 = s := by
  constructor
  · rfl
  · show applyOverrides s noOverrides = s
    rfl

end AsciiArt
